import Mathlib

/-!
Verification development for the apantli chat-completion proxy.

Each definition below is a shallow embedding of a function of the source
repository (apantli/server.py, apantli/database.py, apantli/errors.py,
apantli/utils.py).  Python dicts are modelled as association lists with
unique keys, SQLite rows as Lean structures, machine integers as Int,
SQL REAL aggregates as exact rationals.
-/

namespace Apantli

/-- A Python value as it appears in a request/route parameter dict.
`null` models Python `None`; the other constructors carry the payloads
the proxy actually inspects. -/
inductive Val where
  | null
  | str (s : String)
  | int (n : Int)
  | bool (b : Bool)
  deriving DecidableEq, Repr

/-- A Python dict with string keys, modelled as an association list.
The proxy only ever builds dicts with unique keys (Python dicts cannot
hold duplicates); theorems that need uniqueness take it as a hypothesis. -/
def Dict := List (String × Val)

instance : DecidableEq Dict := by
  unfold Dict
  infer_instance

/-- Membership test, Python `key in d`. -/
def Dict.hasKey : Dict → String → Bool
  | [], _ => false
  | p :: t, k => p.1 == k || Dict.hasKey t k

/-- Lookup, Python `d.get(key)` (`none` when the key is absent). -/
def Dict.get? : Dict → String → Option Val
  | [], _ => none
  | p :: t, k => if p.1 == k then some p.2 else Dict.get? t k

/-- Assignment, Python `d[key] = v`: overwrite the existing entry when the
key is present, append otherwise (Python dicts keep insertion order). -/
def Dict.set : Dict → String → Val → Dict
  | [], k, v => [(k, v)]
  | p :: t, k, v => if p.1 == k then (k, v) :: t else p :: Dict.set t k v

/-- Keys of a dict, in order. -/
def Dict.keys (d : Dict) : List String := d.map Prod.fst

/-- Python truthiness of `Optional[...] is None`: true when the key is
absent or its value is `None`. -/
def pyIsNone : Option Val → Bool
  | none => true
  | some Val.null => true
  | some _ => false

/-- server.py: metadata keys excluded from the route-parameter merge. -/
def EXCLUDED_KEYS : List String :=
  [ "model", "api_key", "enabled", "input_cost_per_million", "output_cost_per_million" ]

/-- One iteration of the merge loop of resolve_model_config: the route
value is applied only if the key is not reserved and the client did not
supply the key or supplied `None`. -/
def mergeStep (rd : Dict) (p : String × Val) : Dict :=
  if p.1 ∈ EXCLUDED_KEYS then rd
  else if !(rd.hasKey p.1) || pyIsNone (rd.get? p.1) then rd.set p.1 p.2
  else rd

/-- server.py resolve_model_config, the per-key merge loop over all route
map entries. -/
def mergeRouteParams (request_data : Dict) (model_config : Dict) : Dict :=
  List.foldl mergeStep request_data model_config

/-- server.py resolve_model_config, last step: global defaults for timeout
and retry count, applied only when the key is still absent. -/
def applyGlobalDefaults (rd : Dict) (timeout num_retries : Int) : Dict :=
  let rd1 := if rd.hasKey "timeout" then rd else rd.set "timeout" (Val.int timeout)
  if rd1.hasKey "num_retries" then rd1 else rd1.set "num_retries" (Val.int num_retries)

/-- Failure outcomes of resolve_model_config.  The Python code raises
HTTPException with a formatted detail string; `available` additionally
records which aliases were formatted into the not-found detail.
`keyError` models the KeyError Python would raise on a route map that
lacks the mandatory litellm model identifier. -/
inductive ResolveError where
  | modelNotFound (status : Nat) (available : List String) (detail : String)
  | modelDisabled (status : Nat) (detail : String)
  | keyError (key : String)
  deriving DecidableEq, Repr

def ResolveError.isNotFound : ResolveError → Bool
  | .modelNotFound _ _ _ => true
  | _ => false

def ResolveError.isDisabled : ResolveError → Bool
  | .modelDisabled _ _ => true
  | _ => false

/-- Lexicographic comparison on code points, the order Python `sorted`
uses for strings. -/
def lexLe : List Char → List Char → Bool
  | [], _ => true
  | _ :: _, [] => false
  | c :: cs, d :: ds =>
    if c.toNat < d.toNat then true
    else if d.toNat < c.toNat then false
    else lexLe cs ds

/-- String comparison on code points. -/
def strLe (a b : String) : Bool := lexLe a.toList b.toList

/-- Ascending insertion used to model Python `sorted`. -/
def insertStr (s : String) : List String → List String
  | [] => [s]
  | x :: xs => if strLe s x then s :: x :: xs else x :: insertStr s xs

/-- Python `sorted` on a list of strings. -/
def sortStrings (l : List String) : List String := l.foldr insertStr []

/-- The detail string of the 404 raised for an unknown alias. -/
def notFoundMsg (model : String) (available : List String) : String :=
  "Model \x27" ++ model ++ "\x27 not found in configuration." ++
    (if available.isEmpty then "" else " Available models: " ++ String.intercalate ", " available)

/-- The detail string of the 403 raised for a disabled alias. -/
def disabledMsg (model : String) : String :=
  "Model \x27" ++ model ++ "\x27 is disabled. Enable it in the dashboard at /."

/-- The enabled check of resolve_model_config: `config` is the optional
Config object, reduced to its alias-to-enabled-flag map; the check fires
only when the config is present and knows the alias. -/
def cfgDisabled (config : Option (List (String × Bool))) (model : String) : Bool :=
  match config with
  | some cfg => cfg.lookup model == some false
  | none => false

/-- server.py resolve_model_config.  `model_map` maps aliases to litellm
parameter dicts, `env` is the process environment (api_key values are
strings by config validation).  Returns the merged working request or the
error the endpoint surfaces. -/
def resolve_model_config (model : String) (request_data : Dict)
    (model_map : List (String × Dict)) (timeout num_retries : Int)
    (config : Option (List (String × Bool))) (env : String → Option String) :
    Except ResolveError Dict :=
  match model_map.lookup model with
  | none =>
    let available := sortStrings (model_map.map Prod.fst)
    .error (.modelNotFound 404 available (notFoundMsg model available))
  | some model_config =>
    if cfgDisabled config model then
      .error (.modelDisabled 403 (disabledMsg model))
    else
      match model_config.get? "model" with
      | none => .error (.keyError "model")
      | some mv =>
        let rd := request_data.set "model" mv
        let api_key_cfg := match model_config.get? "api_key" with
          | some (Val.str s) => s
          | _ => ""
        let api_key := if api_key_cfg.startsWith "os.environ/"
          then (env (api_key_cfg.drop 11)).getD "" else api_key_cfg
        let rd := if api_key ≠ "" then rd.set "api_key" (Val.str api_key) else rd
        let rd := mergeRouteParams rd model_config
        .ok (applyGlobalDefaults rd timeout num_retries)

/-- Following the spec's words (§4.1, "listing all enabled aliases in the
failure payload"): the aliases of the configuration whose routes are
enabled.  Used only to compare the spec's description against the list the
code actually formats into the 404 detail. -/
def enabledAliasesSpec (models : List (String × Bool)) : List String :=
  (models.filter (fun p => p.2)).map Prod.fst

/-- The litellm exception classes the proxy dispatches on
(errors.py imports). -/
inductive ExcClass where
  | badRequestError
  | rateLimitError
  | authenticationError
  | permissionDeniedError
  | notFoundError
  | timeout
  | internalServerError
  | serviceUnavailableError
  | apiConnectionError
  deriving DecidableEq, Repr

/-- A caught exception: `name` is Python `type(e).__name__`, `classes` the
set of mapped litellm classes it is an instance of (its ancestry), and
`msg` the clean message extract_error_message produces for it (the
provider-specific text parsing is abstracted into this field). -/
structure Exc where
  name : String
  classes : List ExcClass
  msg : String
  deriving DecidableEq, Repr

/-- Python `isinstance(e, cls)` for the mapped classes. -/
def isinstanceOf (e : Exc) (c : ExcClass) : Bool := e.classes.contains c

/-- errors.py ERROR_MAP in source (insertion) order: exception class to
(HTTP status, error type, error code).  Python dicts iterate in insertion
order, so the dict is an ordered rule table. -/
def ERROR_MAP : List (ExcClass × Nat × String × String) :=
  [ (.badRequestError, 400, "invalid_request_error", "bad_request"),
    (.rateLimitError, 429, "rate_limit_error", "rate_limit_exceeded"),
    (.authenticationError, 401, "authentication_error", "invalid_api_key"),
    (.permissionDeniedError, 403, "permission_denied", "permission_denied"),
    (.notFoundError, 404, "invalid_request_error", "model_not_found"),
    (.timeout, 504, "timeout_error", "request_timeout"),
    (.internalServerError, 503, "service_unavailable", "service_unavailable"),
    (.serviceUnavailableError, 503, "service_unavailable", "service_unavailable"),
    (.apiConnectionError, 502, "connection_error", "connection_error") ]

/-- errors.py get_error_details: scan ERROR_MAP top to bottom, first
isinstance match wins, unknown exceptions map to the generic triple. -/
def get_error_details (e : Exc) : Nat × String × String :=
  match ERROR_MAP.find? (fun rule => isinstanceOf e rule.1) with
  | some rule => rule.2
  | none => (500, "api_error", "internal_error")

/-- A proleptic Gregorian calendar date, the value datetime.fromisoformat
produces for a date-only string. -/
structure DateYMD where
  year : Int
  month : Int
  day : Int
  deriving DecidableEq, Repr

/-- Gregorian leap-year rule, as Python's datetime implements it. -/
def isLeapYear (y : Int) : Bool :=
  (y % 4 == 0 && y % 100 != 0) || y % 400 == 0

/-- Length of a month in the Gregorian calendar. -/
def daysInMonth (y m : Int) : Int :=
  if m == 2 then (if isLeapYear y then 29 else 28)
  else if m == 4 || m == 6 || m == 9 || m == 11 then 30
  else 31

/-- Days from 1970-01-01 to the given civil date (negative for earlier
dates); the standard exact Gregorian day-count computation, modelling the
day arithmetic Python's datetime performs via date ordinals. -/
def daysFromCivil (d : DateYMD) : Int :=
  let y := if d.month ≤ 2 then d.year - 1 else d.year
  let era := Int.fdiv y 400
  let yoe := y - era * 400
  let mp := Int.emod (d.month + 9) 12
  let doy := (153 * mp + 2) / 5 + d.day - 1
  let doe := yoe * 365 + yoe / 4 - yoe / 100 + doy
  era * 146097 + doe - 719468

/-- Inverse of daysFromCivil: the civil date a given day count falls on. -/
def civilFromDays (z0 : Int) : DateYMD :=
  let z := z0 + 719468
  let era := Int.fdiv z 146097
  let doe := z - era * 146097
  let yoe := (doe - doe / 1460 + doe / 36524 - doe / 146096) / 365
  let y := yoe + era * 400
  let doy := doe - (365 * yoe + yoe / 4 - yoe / 100)
  let mp := (5 * doy + 2) / 153
  let dd := doy - (153 * mp + 2) / 5 + 1
  let m := if mp < 10 then mp + 3 else mp - 9
  { year := if m ≤ 2 then y + 1 else y, month := m, day := dd }

/-- Zero-pad a non-negative integer to a fixed width, as Python
isoformat does for each datetime field. -/
def padNum (width : Nat) (n : Int) : String :=
  let s := toString n.natAbs
  String.mk (List.replicate (width - s.length) '0') ++ s

/-- An instant on the UTC timeline, in whole minutes since 1970-01-01T00:00.
The proxy only ever shifts local midnights by whole minutes, so minute
precision is exact here. -/
def instantToISO (t : Int) : String :=
  let days := Int.fdiv t 1440
  let rem := Int.emod t 1440
  let d := civilFromDays days
  padNum 4 d.year ++ "-" ++ padNum 2 d.month ++ "-" ++ padNum 2 d.day ++ "T"
    ++ padNum 2 (rem / 60) ++ ":" ++ padNum 2 (rem % 60) ++ ":00"

/-- Date part only, Python `str(dt.date())`. -/
def dateToISO (d : DateYMD) : String :=
  padNum 4 d.year ++ "-" ++ padNum 2 d.month ++ "-" ++ padNum 2 d.day

def digitVal (c : Char) : Option Nat :=
  if c.isDigit then some (c.toNat - 48) else none

/-- Parse a YYYY-MM-DD string, validating the calendar values the way
datetime.fromisoformat does for a date-only input (year 1..9999). -/
def parseDate (s : String) : Option DateYMD :=
  match s.toList with
  | [y1, y2, y3, y4, s1, m1, m2, s2, d1, d2] =>
    if s1 == '-' && s2 == '-' then
      match digitVal y1, digitVal y2, digitVal y3, digitVal y4,
            digitVal m1, digitVal m2, digitVal d1, digitVal d2 with
      | some a, some b, some c, some d, some e, some f, some g, some h =>
        let y : Int := (a * 1000 + b * 100 + c * 10 + d : Nat)
        let m : Int := (e * 10 + f : Nat)
        let dd : Int := (g * 10 + h : Nat)
        if 1 ≤ y && y ≤ 9999 && 1 ≤ m && m ≤ 12 && 1 ≤ dd && dd ≤ daysInMonth y m then
          some { year := y, month := m, day := dd }
        else none
      | _, _, _, _, _, _, _, _ => none
    else none
  | _ => none

/-- Midnight of a civil date as an instant. -/
def localMidnightInstant (d : DateYMD) : Int := daysFromCivil d * 1440

/-- utils.py convert_local_date_to_utc_range at the instant level:
utc_start = local midnight minus the offset minutes, utc_end = utc_start
plus one day. -/
def utcRangeInstants (d : DateYMD) (offsetMinutes : Int) : Int × Int :=
  let start := localMidnightInstant d - offsetMinutes
  (start, start + 1440)

/-- First representable Python datetime instant (0001-01-01T00:00). -/
def minInstant : Int := daysFromCivil { year := 1, month := 1, day := 1 } * 1440

/-- Last whole-minute Python datetime instant (9999-12-31T23:59). -/
def maxInstant : Int :=
  daysFromCivil { year := 9999, month := 12, day := 31 } * 1440 + 1439

/-- utils.py convert_local_date_to_utc_range for the date-only inputs the
endpoints pass.  Returns none where Python raises: an unparseable date
string (ValueError) or datetime arithmetic leaving the year 1..9999 range
(OverflowError). -/
def convert_local_date_to_utc_range (date_str : String)
    (timezone_offset_minutes : Int) : Option (String × String) :=
  match parseDate date_str with
  | none => none
  | some d =>
    let r := utcRangeInstants d timezone_offset_minutes
    if minInstant ≤ r.1 && r.2 ≤ maxInstant then
      some (instantToISO r.1, instantToISO r.2)
    else none

/-- Python truthiness of an Optional[int]: None and 0 are falsy. -/
def truthyInt : Option Int → Bool
  | none => false
  | some n => n != 0

/-- The relative-window SQL fragment build_time_filter produces for a
truthy hours argument. -/
def hoursClause : String := "AND datetime(timestamp) > datetime(\x27now\x27, ?)"

/-- The date-based branches of build_time_filter (everything after the
hours shortcut).  Note the source parses only the end date in the
no-timezone branches; start dates are interpolated unparsed. -/
def dateTimeFilter (start_date end_date : Option String)
    (timezone_offset : Option Int) : Option (String × List String) :=
  match start_date, end_date with
  | some sd, some ed =>
    match timezone_offset with
    | some off =>
      match convert_local_date_to_utc_range sd off,
            convert_local_date_to_utc_range ed off with
      | some rs, some re2 =>
        some ("AND timestamp >= ? AND timestamp < ?", [ rs.1, re2.2 ])
      | _, _ => none
    | none =>
      match parseDate ed with
      | some d2 =>
        if daysFromCivil d2 + 1 ≤ daysFromCivil { year := 9999, month := 12, day := 31 } then
          some ("AND timestamp >= ? AND timestamp < ?",
            [ sd ++ "T00:00:00", dateToISO (civilFromDays (daysFromCivil d2 + 1)) ++ "T00:00:00" ])
        else none
      | none => none
  | some sd, none =>
    match timezone_offset with
    | some off =>
      match convert_local_date_to_utc_range sd off with
      | some rs => some ("AND timestamp >= ?", [ rs.1 ])
      | none => none
    | none => some ("AND timestamp >= ?", [ sd ++ "T00:00:00" ])
  | none, some ed =>
    match timezone_offset with
    | some off =>
      match convert_local_date_to_utc_range ed off with
      | some re2 => some ("AND timestamp < ?", [ re2.2 ])
      | none => none
    | none =>
      match parseDate ed with
      | some d2 =>
        if daysFromCivil d2 + 1 ≤ daysFromCivil { year := 9999, month := 12, day := 31 } then
          some ("AND timestamp < ?",
            [ dateToISO (civilFromDays (daysFromCivil d2 + 1)) ++ "T00:00:00" ])
        else none
      | none => none
  | none, none => some ("", [])

/-- utils.py build_time_filter: the hours shortcut takes precedence when
hours is truthy (supplied and nonzero); otherwise the date branches.
Returns none where Python raises. -/
def build_time_filter (hours : Option Int) (start_date end_date : Option String)
    (timezone_offset : Option Int) : Option (String × List String) :=
  if truthyInt hours then
    some (hoursClause, [ "-" ++ toString (hours.getD 0) ++ " hours" ])
  else dateTimeFilter start_date end_date timezone_offset

structure Usage where
  prompt_tokens : Int
  completion_tokens : Int
  total_tokens : Int
  deriving DecidableEq, Repr

def zeroUsage : Usage := { prompt_tokens := 0, completion_tokens := 0, total_tokens := 0 }

/-- A response dict as the engine handles it: a provider response
(model_dump) or the synthetic full_response accumulated while streaming.
`usage` is the optional usage block; `streamError` models the
_stream_error key set only by the streaming error handlers. -/
structure Resp where
  id : Option String
  model : String
  content : String
  finish_reason : Option String
  usage : Option Usage
  streamError : Option String
  deriving DecidableEq, Repr

/-- A row of the requests table as database.py log_request inserts it.
`timestamp` is an abstract UTC instant; `cost` is exact rational where
SQLite stores REAL; request/response payloads are kept as model values
rather than JSON strings. -/
structure Record where
  timestamp : Int
  model : String
  provider : String
  prompt_tokens : Int
  completion_tokens : Int
  total_tokens : Int
  cost : ℚ
  duration_ms : Int
  request_data : String
  response_data : Option Resp
  error : Option String
  deriving DecidableEq, Repr

/-- database.py log_request.  `costFn` abstracts litellm.completion_cost
(an external SDK call); none models the swallowed exception, recorded as
zero cost.  Tokens and cost are taken from the response whenever one is
passed, independently of `error`. -/
def log_request (costFn : Resp → Option ℚ) (now : Int) (model provider : String)
    (response : Option Resp) (duration_ms : Int) (request_data : String)
    (error : Option String) : Record :=
  let usage := match response with
    | some r => r.usage.getD zeroUsage
    | none => zeroUsage
  let cost : ℚ := match response with
    | some r => (costFn r).getD 0
    | none => 0
  { timestamp := now, model := model, provider := provider,
    prompt_tokens := usage.prompt_tokens,
    completion_tokens := usage.completion_tokens,
    total_tokens := usage.total_tokens,
    cost := cost, duration_ms := duration_ms,
    request_data := request_data, response_data := response, error := error }

/-- One provider stream chunk as chunk.model_dump() presents it to the
generate() loop: `choicesNonempty` models the choices-present-and-nonempty
guard, `content` the delta content (none = key absent or null),
`finish_reason` the optional finish_reason slot of choices[0] (outer
option: key present), `id` (some = present and truthy), `usage` the
optional usage block. -/
structure Chunk where
  choicesNonempty : Bool
  content : Option String
  finish_reason : Option (Option String)
  id : Option String
  usage : Option Usage
  deriving DecidableEq, Repr

/-- The synthetic full_response execute_streaming_request initializes
before streaming: empty content, zeroed usage dict, the litellm model
name. -/
def initFullResponse (litellmModel : String) : Resp :=
  { id := none, model := litellmModel, content := "",
    finish_reason := none, usage := some zeroUsage, streamError := none }

/-- The generate() loop body: accumulate one chunk into the synthetic
response (concatenate content, keep last finish_reason, last truthy id,
last usage block). -/
def accumChunk (fr : Resp) (c : Chunk) : Resp :=
  let fr1 := if c.choicesNonempty then
      let fra := match c.content with
        | some s => { fr with content := fr.content ++ s }
        | none => fr
      match c.finish_reason with
        | some v => { fra with finish_reason := v }
        | none => fra
    else fr
  let fr2 := match c.id with
    | some s => { fr1 with id := some s }
    | none => fr1
  match c.usage with
    | some u => { fr2 with usage := some u }
    | none => fr2

/-- A server-sent event frame of the streaming response. -/
inductive Frame where
  | chunk (c : Chunk)
  | errorEvent (message : String) (code : String)
  | done
  deriving DecidableEq, Repr

/-- The exception classes the generate() loop's provider-error handler
catches, in the order of the except clause. -/
def STREAM_CAUGHT : List ExcClass :=
  [ .rateLimitError, .internalServerError, .serviceUnavailableError,
    .timeout, .apiConnectionError, .badRequestError ]

def isStreamCaught (e : Exc) : Bool :=
  e.classes.any (fun c => STREAM_CAUGHT.contains c)

/-- The _stream_error string generate() stores for a mid-stream provider
exception (the catch-all handler uses the UnexpectedStreamError label). -/
def streamErrorText (e : Exc) : String :=
  if isStreamCaught e then e.name ++ ": " ++ e.msg
  else "UnexpectedStreamError: " ++ e.msg

/-- The terminal error frame generate() tries to forward for a mid-stream
provider exception. -/
def streamErrorFrame (e : Exc) : Frame :=
  if isStreamCaught e then .errorEvent e.msg e.name.toLower
  else .errorEvent e.msg "internal_error"

/-- Client-disconnect observation: request.is_disconnected() returns true
from the k-th per-chunk poll onward (none = the client never disconnects).
Disconnection is monotone: once observed, later polls also see it. -/
def disconnectedAt (dAfter : Option Nat) (k : Nat) : Bool :=
  match dAfter with
  | none => false
  | some n => decide (n ≤ k)

/-- The chunk-forwarding loop of generate(): poll for disconnect before
processing each pulled chunk; on disconnect return immediately (the
provider iterator is not pulled further), else accumulate and forward.
Returns the forwarded frames, the accumulated synthetic response, and
whether the loop exited through the disconnect return. -/
def genLoop (dAfter : Option Nat) : List Chunk → Nat → Resp → (List Frame × Resp × Bool)
  | [], _, fr => ([], fr, false)
  | c :: cs, k, fr =>
    if disconnectedAt dAfter k then ([], fr, true)
    else
      let res := genLoop dAfter cs (k + 1) (accumChunk fr c)
      (Frame.chunk c :: res.1, res.2)

/-- generate() in execute_streaming_request: run the loop; when the chunk
source raises after its chunks (terr), record the classified error in the
synthetic response and try to forward a terminal error frame; always try
to forward the [DONE] sentinel — both sends suppressed when the client is
already observed disconnected.  The connection-error exits (BrokenPipe
etc.) are covered by the disconnect model. -/
def runGenerate (chunks : List Chunk) (terr : Option Exc) (dAfter : Option Nat)
    (litellmModel : String) : List Frame × Resp :=
  let res := genLoop dAfter chunks 0 (initFullResponse litellmModel)
  let frames := res.1
  let fr := res.2.1
  let early := res.2.2
  if early then (frames, fr)
  else
    match terr with
    | some e =>
      let fr2 := { fr with streamError := some (streamErrorText e) }
      let frames2 := frames
        ++ (if disconnectedAt dAfter chunks.length then [] else [ streamErrorFrame e ])
        ++ (if disconnectedAt dAfter chunks.length then [] else [ Frame.done ])
      (frames2, fr2)
    | none =>
      (frames ++ (if disconnectedAt dAfter chunks.length then [] else [ Frame.done ]), fr)

/-- The control-flow outcomes of the chat_completions handler that the
spec enumerates.  `resolutionFailure detail` is the HTTPException path
(unknown or disabled alias); `nonStreamError` covers every exception of
the non-streaming completion call — mapped and unexpected exceptions alike
reach handle_llm_error. -/
inductive ChatPath where
  | nonStreamSuccess (resp : Resp)
  | nonStreamError (e : Exc)
  | resolutionFailure (detail : String)
  | streaming (chunks : List Chunk) (terr : Option Exc) (dAfter : Option Nat)

/-- What a chat_completions run produces besides the HTTP response body:
the ledger records written and the frames forwarded to the client. -/
structure ChatResult where
  records : List Record
  frames : List Frame
  deriving DecidableEq, Repr

/-- handle_llm_error collapses InternalServerError and
ServiceUnavailableError to the ProviderError label; other exceptions keep
their type name. -/
def handledErrorName (e : Exc) : String :=
  if e.classes.contains ExcClass.internalServerError
      || e.classes.contains ExcClass.serviceUnavailableError
  then "ProviderError" else e.name

/-- chat_completions paired with its per-branch ledger write: each branch
performs exactly the db.log_request call of the source, the streaming one
as the background task that runs after the stream ends.  `provider`
abstracts infer_provider_from_model on the resolved model name, `rdLog`
the logged request payload, `dur` the measured duration. -/
def runChat (costFn : Resp → Option ℚ) (now dur : Int) (model provider : String)
    (litellmModel : String) (rdLog : String) : ChatPath → ChatResult
  | .nonStreamSuccess resp =>
    { records := [ log_request costFn now model provider (some resp) dur rdLog none ],
      frames := [] }
  | .nonStreamError e =>
    { records := [ log_request costFn now model provider none dur rdLog
        (some (handledErrorName e ++ ": " ++ e.msg)) ],
      frames := [] }
  | .resolutionFailure detail =>
    { records := [ log_request costFn now model "unknown" none dur rdLog
        (some ("UnknownModel: " ++ detail)) ],
      frames := [] }
  | .streaming chunks terr dAfter =>
    let gen := runGenerate chunks terr dAfter litellmModel
    { records := [ log_request costFn now model provider (some gen.2) dur rdLog
        gen.2.streamError ],
      frames := gen.1 }

/-- Test chunk: delta content only, with a truthy id. -/
def chunkHel : Chunk :=
  { choicesNonempty := true, content := some "Hel", finish_reason := none,
    id := some "c1", usage := none }

/-- Test usage block. -/
def usage5712 : Usage :=
  { prompt_tokens := 5, completion_tokens := 7, total_tokens := 12 }

/-- Test chunk: final delta carrying finish_reason and the usage block. -/
def chunkLo : Chunk :=
  { choicesNonempty := true, content := some "lo", finish_reason := some (some "stop"),
    id := none, usage := some usage5712 }

/-- Test exception: a rate limit error. -/
def excRate : Exc :=
  { name := "RateLimitError", classes := [.rateLimitError], msg := "slow down" }

/-- Test exception: a provider bad-request error raised mid-stream. -/
def excBadReq : Exc :=
  { name := "BadRequestError", classes := [.badRequestError], msg := "boom" }

/-- Non-errored rows matching a filter: the `WHERE error IS NULL {filter}`
shape shared by the get_requests and get_stats queries.  The time and
attribute predicates are abstracted into `filt`. -/
def matchingRows (db : List Record) (filt : Record → Bool) : List Record :=
  db.filter (fun r => r.error.isNone && filt r)

/-- SQLite LIMIT/OFFSET semantics for the paginated SELECT: a negative
OFFSET is treated as zero and a negative LIMIT means no upper bound. -/
def sqlPage (rows : List Record) (offset limit : Int) : List Record :=
  let dropped := rows.drop offset.toNat
  if limit < 0 then dropped else dropped.take limit.toNat

/-- Insertion into a timestamp-descending list (ORDER BY timestamp DESC). -/
def insertDesc (r : Record) : List Record → List Record
  | [] => [r]
  | x :: xs => if x.timestamp ≤ r.timestamp then r :: x :: xs else x :: insertDesc r xs

def sortByTsDesc (rows : List Record) : List Record := rows.foldr insertDesc []

/-- The result shape of database.py get_requests: the page of rows plus
aggregates over all matching rows. -/
structure Page where
  requests : List Record
  total : Nat
  total_tokens : Int
  total_cost : ℚ
  avg_cost : ℚ
  offset : Int
  limit : Int
  deriving DecidableEq, Repr

/-- database.py get_requests: aggregate COUNT/SUM/AVG over every matching
non-errored row (SQL NULL aggregates of an empty selection become 0 via
the `or 0` defaults), then the timestamp-descending page under
LIMIT/OFFSET. -/
def get_requests (db : List Record) (filt : Record → Bool) (offset limit : Int) : Page :=
  let m := matchingRows db filt
  { requests := sqlPage (sortByTsDesc m) offset limit,
    total := m.length,
    total_tokens := (m.map Record.total_tokens).sum,
    total_cost := (m.map Record.cost).sum,
    avg_cost := if m.length = 0 then 0 else (m.map Record.cost).sum / (m.length : ℚ),
    offset := offset, limit := limit }

/-- server.py /requests pagination: the requested limit is clamped to 200
before the database query. -/
def requestsEndpointQuery (db : List Record) (filt : Record → Bool)
    (offset limit : Int) : Page :=
  get_requests db filt offset (min limit 200)

/-- The fields the RequestFilter dataclass declares (database.py). -/
def requestFilterFields : List String :=
  [ "time_filter", "time_params", "offset", "limit", "provider", "model",
    "min_cost", "max_cost", "search" ]

/-- The keyword arguments the /requests endpoint passes when constructing
RequestFilter (server.py). -/
def requestsEndpointKwargs : List String :=
  [ "time_filter", "time_params", "offset", "limit", "provider", "model",
    "min_cost", "max_cost", "search", "sort_by", "sort_dir" ]

/-- A non-errored test ledger row. -/
def recOk : Record :=
  { timestamp := 10, model := "gpt", provider := "openai", prompt_tokens := 5,
    completion_tokens := 7, total_tokens := 12, cost := 3 / 1000,
    duration_ms := 800, request_data := "rq", response_data := none, error := none }

/-- The throughput precondition rows of the get_stats performance query:
non-errored, positive completion tokens, positive duration, in window. -/
def perfRows (db : List Record) (tf : Record → Bool) : List Record :=
  db.filter (fun r =>
    r.error.isNone && decide (0 < r.completion_tokens)
      && decide (0 < r.duration_ms) && tf r)

/-- completion_tokens / (duration_ms / 1000), the per-row throughput the
performance query aggregates. -/
def tokensPerSec (r : Record) : ℚ :=
  (r.completion_tokens : ℚ) / ((r.duration_ms : ℚ) / 1000)

/-- SQL AVG over a non-NULL column (0 for an empty selection, matching the
`or 0` defaults applied to the fetched values). -/
def avgQ (l : List ℚ) : ℚ :=
  if l.length = 0 then 0 else l.sum / (l.length : ℚ)

/-- SQL MIN over a group (groups produced by GROUP BY are nonempty; 0 is
the `or 0` default otherwise). -/
def listMin : List ℚ → ℚ
  | [] => 0
  | x :: xs => xs.foldl min x

/-- SQL MAX over a group. -/
def listMax : List ℚ → ℚ
  | [] => 0
  | x :: xs => xs.foldl max x

/-- The distinct models of a row set, GROUP BY model. -/
def modelsOf (l : List Record) : List String := (l.map Record.model).dedup

/-- One row of the get_stats performance result for a model: COUNT, AVG
throughput, AVG duration, MIN/MAX throughput, AVG cost over that model's
qualifying rows. -/
structure PerfEntry where
  model : String
  requests : Nat
  avg_tokens_per_sec : ℚ
  avg_duration_ms : ℚ
  min_tokens_per_sec : ℚ
  max_tokens_per_sec : ℚ
  avg_cost_per_request : ℚ
  deriving DecidableEq, Repr

def perfEntryFor (rows : List Record) (m : String) : PerfEntry :=
  let g := rows.filter (fun r => r.model == m)
  let rates := g.map tokensPerSec
  { model := m, requests := g.length,
    avg_tokens_per_sec := avgQ rates,
    avg_duration_ms := avgQ (g.map (fun r => (r.duration_ms : ℚ))),
    min_tokens_per_sec := listMin rates,
    max_tokens_per_sec := listMax rates,
    avg_cost_per_request := avgQ (g.map Record.cost) }

/-- The totals block of get_stats: COUNT/SUM/AVG over every non-errored
in-window row, with no positivity precondition. -/
structure Totals where
  requests : Nat
  cost : ℚ
  prompt_tokens : Int
  completion_tokens : Int
  avg_duration_ms : ℚ
  deriving DecidableEq, Repr

/-- The totals and performance queries of database.py get_stats (the
by-model/by-provider/recent-errors blocks and the display ordering and
rounding are not referenced by the verified property and are left out).
Exact rationals stand for the SQL REAL arithmetic. -/
def statsTotalsAndPerformance (db : List Record) (tf : Record → Bool) :
    Totals × List PerfEntry :=
  let base := matchingRows db tf
  let perf := perfRows db tf
  ({ requests := base.length,
     cost := (base.map Record.cost).sum,
     prompt_tokens := (base.map Record.prompt_tokens).sum,
     completion_tokens := (base.map Record.completion_tokens).sum,
     avg_duration_ms := avgQ (base.map (fun r => (r.duration_ms : ℚ))) },
   (modelsOf perf).map (perfEntryFor perf))

/-- Character-list prefix test for the LIKE substring semantics. -/
def listStartsWith : List Char → List Char → Bool
  | _, [] => true
  | [], _ :: _ => false
  | c :: cs, d :: ds => c == d && listStartsWith cs ds

/-- Character-list substring test. -/
def listContainsSub : List Char → List Char → Bool
  | [], needle => needle.isEmpty
  | c :: cs, needle => listStartsWith (c :: cs) needle || listContainsSub cs needle

/-- SQL `LIKE ?` with a %pat% parameter: substring containment. -/
def containsSub (hay pat : String) : Bool := listContainsSub hay.toList pat.toList

/-- The free-text search predicate of get_requests over model name and the
request/response payloads (payload serialization abstracted to the logged
request string and the response content; a NULL response column never
matches, as in SQL). -/
def searchMatch (r : Record) (pat : String) : Bool :=
  containsSub r.model pat || containsSub r.request_data pat
    || (match r.response_data with
        | some resp => containsSub resp.content pat
        | none => false)

/-- The semantics over stored timestamps of the SQL predicate
build_time_filter produces: strict greater-than `now` minus N hours for
the truthy shortcut, otherwise the UTC instant bounds of the (already
parsed) local date range, mirroring the branch structure of
build_time_filter. -/
def timeWindowMatch (hours : Option Int) (sd ed : Option DateYMD)
    (tz : Option Int) (now : Int) (ts : Int) : Bool :=
  if truthyInt hours then decide (now - (hours.getD 0) * 60 < ts)
  else match sd, ed with
    | some s, some e =>
      match tz with
      | some off =>
        decide ((utcRangeInstants s off).1 ≤ ts) && decide (ts < (utcRangeInstants e off).2)
      | none =>
        decide (localMidnightInstant s ≤ ts) && decide (ts < localMidnightInstant e + 1440)
    | some s, none =>
      match tz with
      | some off => decide ((utcRangeInstants s off).1 ≤ ts)
      | none => decide (localMidnightInstant s ≤ ts)
    | none, some e =>
      match tz with
      | some off => decide (ts < (utcRangeInstants e off).2)
      | none => decide (ts < localMidnightInstant e + 1440)
    | none, none => true

/-- A /requests query specification: the reference instant `now` for the
hours shortcut, the parsed time window, the attribute and search filters
(empty strings are falsy for the string filters, as in the Python
truthiness checks), and pagination. -/
structure QuerySpec where
  now : Int
  hours : Option Int
  start_date : Option DateYMD
  end_date : Option DateYMD
  timezone_offset : Option Int
  provider : Option String
  model : Option String
  min_cost : Option ℚ
  max_cost : Option ℚ
  search : Option String
  offset : Int
  limit : Int

/-- The full row predicate of get_requests for a query specification. -/
def rowMatchesSpec (q : QuerySpec) (r : Record) : Bool :=
  timeWindowMatch q.hours q.start_date q.end_date q.timezone_offset q.now r.timestamp
    && (match q.provider with
        | some p => if p.isEmpty then true else r.provider == p
        | none => true)
    && (match q.model with
        | some m => if m.isEmpty then true else r.model == m
        | none => true)
    && (match q.min_cost with
        | some c => decide (c ≤ r.cost)
        | none => true)
    && (match q.max_cost with
        | some c => decide (r.cost ≤ c)
        | none => true)
    && (match q.search with
        | some s => if s.isEmpty then true else searchMatch r s
        | none => true)

/-- The ledger operations the endpoints drive: append one record
(log_request), run a read query (get_requests), clear errored records. -/
inductive LedgerOp where
  | append (now : Int) (model provider : String) (resp : Option Resp)
      (dur : Int) (rdLog : String) (err : Option String)
  | query (q : QuerySpec)
  | clearErrors

inductive OpOutput where
  | appended
  | page (p : Page)
  | cleared (n : Nat)

/-- One ledger operation against the current table contents: an INSERT
appends, a read query leaves the table untouched and returns the page,
clear_errors deletes the errored rows and reports their count. -/
def applyOp (costFn : Resp → Option ℚ) (db : List Record) :
    LedgerOp → List Record × OpOutput
  | .append now model provider resp dur rdLog err =>
    (db ++ [ log_request costFn now model provider resp dur rdLog err ], .appended)
  | .query q =>
    (db, .page (get_requests db (fun r => rowMatchesSpec q r) q.offset q.limit))
  | .clearErrors =>
    (db.filter (fun r => r.error.isNone), .cleared (db.filter (fun r => r.error.isSome)).length)

/-- The last usage block of a chunk sequence, none when no chunk carries
one: what the `full_response[usage] = chunk_dict[usage]` overwrite leaves
behind after the whole sequence is accumulated. -/
def lastUsage : List Chunk → Option Usage
  | [] => none
  | c :: cs =>
    match lastUsage cs with
    | some u => some u
    | none => c.usage

/-- The synthetic response generate() holds when a provider exception ends
the stream after its chunks: the full accumulation with the classified
stream error stored in the _stream_error slot. -/
def streamRespOf (chunks : List Chunk) (e : Exc) (m : String) : Resp :=
  { List.foldl accumChunk (initFullResponse m) chunks with
    streamError := some (streamErrorText e) }

theorem Dict.get?_set_self (d : Dict) (k : String) (v : Val) :
    (d.set k v).get? k = some v := by
  induction d with
  | nil => simp [Dict.set, Dict.get?]
  | cons p t ih =>
    by_cases hp : p.1 == k
    · simp [Dict.set, Dict.get?, hp]
    · simp [Dict.set, Dict.get?, hp, ih]

theorem Dict.get?_set_other (d : Dict) (k k2 : String) (v : Val) (hne : k2 ≠ k) :
    (d.set k v).get? k2 = d.get? k2 := by
  induction d with
  | nil =>
    simp only [Dict.set, Dict.get?]
    rw [show (k == k2) = false from by simpa using fun he => hne he.symm]
    rfl
  | cons p t ih =>
    by_cases hp : p.1 == k
    · have hpk : p.1 = k := by simpa using hp
      simp only [Dict.set, hp, if_true, Dict.get?]
      rw [show (k == k2) = false from by simpa using fun he => hne he.symm]
      rw [show (p.1 == k2) = false from by
        rw [hpk]; simpa using fun he => hne he.symm]
      simp
    · simp only [Dict.set, hp, Bool.false_eq_true, if_false, Dict.get?]
      by_cases hp2 : p.1 == k2
      · simp [hp2]
      · simp [hp2, ih]

theorem Dict.hasKey_set (d : Dict) (k k2 : String) (v : Val) :
    (d.set k v).hasKey k2 = ((k == k2) || d.hasKey k2) := by
  induction d with
  | nil => simp [Dict.set, Dict.hasKey]
  | cons p t ih =>
    by_cases hp : p.1 == k
    · have hpk : p.1 = k := by simpa using hp
      simp [Dict.set, Dict.hasKey, hp, hpk]
    · simp only [Dict.set, hp, Bool.false_eq_true, if_false, Dict.hasKey, ih]
      cases hpb : (p.1 == k2) <;> cases hkb : (k == k2) <;> simp

theorem Dict.hasKey_eq_isSome (d : Dict) (k : String) :
    d.hasKey k = (d.get? k).isSome := by
  induction d with
  | nil => rfl
  | cons p t ih =>
    by_cases hp : p.1 == k
    · simp [Dict.hasKey, Dict.get?, hp]
    · simp [Dict.hasKey, Dict.get?, hp, ih]

theorem mergeRouteParams_cons (rd : Dict) (p : String × Val) (t : Dict) :
    mergeRouteParams rd (p :: t) = mergeRouteParams (mergeStep rd p) t := by
  simp [mergeRouteParams, List.foldl_cons]

theorem mergeStep_get?_other (rd : Dict) (p : String × Val) (k : String)
    (hne : p.1 ≠ k) : (mergeStep rd p).get? k = rd.get? k := by
  unfold mergeStep
  by_cases h1 : p.1 ∈ EXCLUDED_KEYS
  · simp [h1]
  · simp only [h1, if_false]
    by_cases h2 : (!(rd.hasKey p.1) || pyIsNone (rd.get? p.1)) = true
    · simp only [h2, if_true]
      exact Dict.get?_set_other rd p.1 k p.2 (fun he => hne he.symm)
    · simp [h2]

theorem merge_untouched (mc : Dict) (rd : Dict) (k : String)
    (h : k ∉ Dict.keys mc) : (mergeRouteParams rd mc).get? k = rd.get? k := by
  induction mc generalizing rd with
  | nil => rfl
  | cons p t ih =>
    have hk : k ∉ Dict.keys t := by
      intro hm
      exact h (by simp only [Dict.keys, List.map_cons, List.mem_cons]; right; exact hm)
    have hne : p.1 ≠ k := by
      intro he
      exact h (by simp [Dict.keys, he])
    rw [mergeRouteParams_cons, ih _ hk, mergeStep_get?_other rd p k hne]

theorem merge_client_wins (mc : Dict) (rd : Dict) (k : String) (w : Val)
    (hw : rd.get? k = some w) (hnn : w ≠ Val.null) :
    (mergeRouteParams rd mc).get? k = some w := by
  induction mc generalizing rd with
  | nil => exact hw
  | cons p t ih =>
    rw [mergeRouteParams_cons]
    by_cases hne : p.1 = k
    · have hstep : mergeStep rd p = rd := by
        unfold mergeStep
        by_cases h1 : p.1 ∈ EXCLUDED_KEYS
        · simp [h1]
        · have hhk : rd.hasKey p.1 = true := by
            rw [hne, Dict.hasKey_eq_isSome, hw]; rfl
          have hnone : pyIsNone (rd.get? p.1) = false := by
            rw [hne, hw]
            cases w with
            | null => exact absurd rfl hnn
            | str s => rfl
            | int n => rfl
            | bool b => rfl
          simp [h1, hhk, hnone]
      rw [hstep]
      exact ih rd hw
    · exact ih _ (by rw [mergeStep_get?_other rd p k hne]; exact hw)

theorem merge_fills (mc : Dict) (rd : Dict) (k : String) (v : Val)
    (hnodup : (Dict.keys mc).Nodup) (hv : mc.get? k = some v)
    (hexc : k ∉ EXCLUDED_KEYS) (hnone : pyIsNone (rd.get? k) = true) :
    (mergeRouteParams rd mc).get? k = some v := by
  induction mc generalizing rd with
  | nil => simp [Dict.get?] at hv
  | cons p t ih =>
    rw [mergeRouteParams_cons]
    by_cases hpk : p.1 = k
    · have hv2 : v = p.2 := by
        unfold Dict.get? at hv
        rw [show (p.1 == k) = true from by simpa using hpk] at hv
        simp at hv
        exact hv.symm
      have hstep : mergeStep rd p = rd.set p.1 p.2 := by
        unfold mergeStep
        rw [hpk] at *
        simp only [hexc, if_false]
        rw [show pyIsNone (rd.get? k) = true from hnone]
        simp
      have hkt : k ∉ Dict.keys t := by
        simp only [Dict.keys, List.map_cons, List.nodup_cons] at hnodup
        rw [← hpk]
        exact hnodup.1
      rw [hstep, merge_untouched t _ k hkt, hpk, Dict.get?_set_self, hv2]
    · have hvt : Dict.get? t k = some v := by
        unfold Dict.get? at hv
        rw [show (p.1 == k) = false from by simpa using hpk] at hv
        simpa using hv
      have hnodupt : (Dict.keys t).Nodup := by
        simp only [Dict.keys, List.map_cons, List.nodup_cons] at hnodup
        exact hnodup.2
      have hnone2 : pyIsNone ((mergeStep rd p).get? k) = true := by
        rw [mergeStep_get?_other rd p k hpk]
        exact hnone
      exact ih (mergeStep rd p) hnodupt hvt hnone2

/-- C2: during the route merge, for every non-reserved key of the route
map, a client-supplied non-null value always survives; a key the client
left absent or set to null receives the route value; afterwards the global
timeout / retry defaults are applied exactly to the keys still absent. -/
theorem route_merge_precedence :
    (∀ (rd mc : Dict) (k : String) (v : Val),
      (Dict.keys mc).Nodup → mc.get? k = some v → k ∉ EXCLUDED_KEYS →
        ((∀ w, rd.get? k = some w → w ≠ Val.null →
            (mergeRouteParams rd mc).get? k = some w)
         ∧ (pyIsNone (rd.get? k) = true →
            (mergeRouteParams rd mc).get? k = some v)))
    ∧ (∀ (rd : Dict) (t r : Int),
        ((applyGlobalDefaults rd t r).get? "timeout"
            = if rd.hasKey "timeout" then rd.get? "timeout" else some (Val.int t))
        ∧ ((applyGlobalDefaults rd t r).get? "num_retries"
            = if rd.hasKey "num_retries" then rd.get? "num_retries" else some (Val.int r))) := by
  constructor
  · intro rd mc k v hnodup hv hexc
    constructor
    · intro w hw hnn
      exact merge_client_wins mc rd k w hw hnn
    · intro hnone
      exact merge_fills mc rd k v hnodup hv hexc hnone
  · intro rd t r
    unfold applyGlobalDefaults
    have hts : ("timeout" : String) ≠ "num_retries" := by decide
    by_cases h1 : rd.hasKey "timeout" = true
    · simp only [h1, if_true]
      by_cases h2 : rd.hasKey "num_retries" = true
      · simp [h1, h2]
      · simp only [Bool.not_eq_true] at h2
        simp only [h2, Bool.false_eq_true, if_false, h1, if_true]
        constructor
        · exact Dict.get?_set_other rd "num_retries" "timeout" (Val.int r) hts
        · rw [Dict.get?_set_self]
    · simp only [Bool.not_eq_true] at h1
      simp only [h1, Bool.false_eq_true, if_false]
      have hk2 : (rd.set "timeout" (Val.int t)).hasKey "num_retries" = rd.hasKey "num_retries" := by
        rw [Dict.hasKey_set]
        simp
      by_cases h2 : rd.hasKey "num_retries" = true
      · rw [hk2, h2]
        simp only [if_true, h1, Bool.false_eq_true, if_false]
        constructor
        · rw [Dict.get?_set_self]
        · exact Dict.get?_set_other rd "timeout" "num_retries" (Val.int t) (fun he => hts he.symm)
      · simp only [Bool.not_eq_true] at h2
        rw [hk2, h2]
        simp only [Bool.false_eq_true, if_false, h1]
        constructor
        · rw [Dict.get?_set_other _ "num_retries" "timeout" (Val.int r) hts, Dict.get?_set_self]
        · rw [Dict.get?_set_self]

/-- Concrete instantiation of the C2 theorem: route map with a temperature
default, client supplying max_tokens and a null temperature. -/
theorem route_merge_precedence_witness :
    (mergeRouteParams [ ("max_tokens", Val.int 16), ("temperature", Val.null) ]
        [ ("model", Val.str "openai/gpt-4o"), ("temperature", Val.int 1), ("max_tokens", Val.int 99) ]).get? "temperature"
      = some (Val.int 1)
    ∧ (mergeRouteParams [ ("max_tokens", Val.int 16), ("temperature", Val.null) ]
        [ ("model", Val.str "openai/gpt-4o"), ("temperature", Val.int 1), ("max_tokens", Val.int 99) ]).get? "max_tokens"
      = some (Val.int 16)
    ∧ (applyGlobalDefaults [ ("timeout", Val.int 7) ] 120 3).get? "timeout" = some (Val.int 7)
    ∧ (applyGlobalDefaults [ ("timeout", Val.int 7) ] 120 3).get? "num_retries" = some (Val.int 3) := by
  refine ⟨?_, ?_, ?_, ?_⟩
  · exact (route_merge_precedence.1
      [ ("max_tokens", Val.int 16), ("temperature", Val.null) ]
      [ ("model", Val.str "openai/gpt-4o"), ("temperature", Val.int 1), ("max_tokens", Val.int 99) ]
      "temperature" (Val.int 1) (by decide) (by decide) (by decide)).2 (by decide)
  · exact (route_merge_precedence.1
      [ ("max_tokens", Val.int 16), ("temperature", Val.null) ]
      [ ("model", Val.str "openai/gpt-4o"), ("temperature", Val.int 1), ("max_tokens", Val.int 99) ]
      "max_tokens" (Val.int 99) (by decide) (by decide) (by decide)).1
      (Val.int 16) (by decide) (by decide)
  · have h := (route_merge_precedence.2 [ ("timeout", Val.int 7) ] 120 3).1
    rw [h]
    decide
  · have h := (route_merge_precedence.2 [ ("timeout", Val.int 7) ] 120 3).2
    rw [h]
    decide

/-- C5 (amended): an unknown alias resolves to a 404 ModelNotFound whose
payload lists all configured aliases, enabled or not; a known but disabled
alias resolves to a 403 ModelDisabled; a known, enabled alias never fails
for either of those reasons. -/
theorem resolve_alias_failures :
    ∀ (model : String) (rd : Dict) (mm : List (String × Dict)) (t r : Int)
      (cfg : List (String × Bool)) (env : String → Option String),
      (mm.lookup model = none →
        resolve_model_config model rd mm t r (some cfg) env
          = .error (.modelNotFound 404 (sortStrings (mm.map Prod.fst))
              (notFoundMsg model (sortStrings (mm.map Prod.fst)))))
      ∧ (∀ mc, mm.lookup model = some mc → cfg.lookup model = some false →
          resolve_model_config model rd mm t r (some cfg) env
            = .error (.modelDisabled 403 (disabledMsg model)))
      ∧ (∀ mc, mm.lookup model = some mc → cfg.lookup model = some true →
          ∀ e, resolve_model_config model rd mm t r (some cfg) env = .error e →
            e.isNotFound = false ∧ e.isDisabled = false) := by
  intro model rd mm t r cfg env
  refine ⟨?_, ?_, ?_⟩
  · intro hnone
    unfold resolve_model_config
    rw [hnone]
  · intro mc hsome hdis
    unfold resolve_model_config
    rw [hsome]
    have hd : cfgDisabled (some cfg) model = true := by
      show (List.lookup model cfg == some false) = true
      rw [hdis]
      rfl
    simp [hd]
  · intro mc hsome hen e hres
    unfold resolve_model_config at hres
    rw [hsome] at hres
    have hd : cfgDisabled (some cfg) model = false := by
      show (List.lookup model cfg == some false) = false
      rw [hen]
      rfl
    rw [hd] at hres
    simp only [Bool.false_eq_true, if_false] at hres
    cases hmv : mc.get? "model" with
    | none =>
      rw [hmv] at hres
      simp only [Except.error.injEq] at hres
      rw [← hres]
      exact ⟨rfl, rfl⟩
    | some mv =>
      rw [hmv] at hres
      simp at hres

/-- Concrete instantiation of the C5 theorem on a two-alias table with one
disabled entry. -/
theorem resolve_alias_failures_witness :
    resolve_model_config "x" []
        [ ("m", [ ("model", Val.str "openai/gpt-4o-mini") ]) ] 120 3
        (some [ ("m", false) ]) (fun _ => none)
      = .error (.modelNotFound 404 [ "m" ] (notFoundMsg "x" [ "m" ]))
    ∧ resolve_model_config "m" []
        [ ("m", [ ("model", Val.str "openai/gpt-4o-mini") ]) ] 120 3
        (some [ ("m", false) ]) (fun _ => none)
      = .error (.modelDisabled 403 (disabledMsg "m")) := by
  constructor
  · have h := (resolve_alias_failures "x" []
      [ ("m", [ ("model", Val.str "openai/gpt-4o-mini") ]) ] 120 3
      [ ("m", false) ] (fun _ => none)).1 (by decide)
    exact h.trans (by rfl)
  · exact (resolve_alias_failures "m" []
      [ ("m", [ ("model", Val.str "openai/gpt-4o-mini") ]) ] 120 3
      [ ("m", false) ] (fun _ => none)).2.1
      [ ("model", Val.str "openai/gpt-4o-mini") ] (by decide) (by decide)

/-- C5 counterexample to the claim as stated: the 404 payload for an
unknown alias is built from all configured aliases, so it lists the
disabled alias "m" even though the set of enabled aliases is empty. -/
theorem resolve_notfound_payload_counterexample :
    resolve_model_config "x" []
        [ ("m", [ ("model", Val.str "openai/gpt-4o-mini") ]) ] 120 3
        (some [ ("m", false) ]) (fun _ => none)
      = .error (.modelNotFound 404 [ "m" ] (notFoundMsg "x" [ "m" ]))
    ∧ enabledAliasesSpec [ ("m", false) ] = []
    ∧ ([ "m" ] : List String) ≠ [] := by
  refine ⟨?_, by decide, by decide⟩
  rfl

theorem find?_of_first {α : Type} (l : List α) (p : α → Bool) (i : Nat) (hi : i < l.length)
    (hp : p (l.get ⟨i, hi⟩) = true)
    (hfirst : ∀ j (hj : j < i), p (l.get ⟨j, Nat.lt_trans hj hi⟩) = false) :
    l.find? p = some (l.get ⟨i, hi⟩) := by
  induction l generalizing i with
  | nil => exact absurd hi (Nat.not_lt_zero i)
  | cons a t ih =>
    cases i with
    | zero =>
      simp only [List.get] at hp
      simp [List.find?, hp]
    | succ n =>
      have ha : p a = false := hfirst 0 (Nat.succ_pos n)
      simp only [List.find?, ha]
      have hn : n < t.length := Nat.lt_of_succ_lt_succ hi
      have hpn : p (t.get ⟨n, hn⟩) = true := hp
      have hfn : ∀ j (hj : j < n), p (t.get ⟨j, Nat.lt_trans hj hn⟩) = false := by
        intro j hj
        exact hfirst (j + 1) (Nat.succ_lt_succ hj)
      exact ih n hn hpn hfn

/-- C4: classification scans the rule table in order; the first rule whose
class the exception is an instance of determines the triple (so a specific
class registered before a general one wins even when both match), and an
exception matching no rule classifies to (500, api_error, internal_error). -/
theorem error_classifier_first_match :
    ∀ e : Exc,
      ((∀ rule ∈ ERROR_MAP, isinstanceOf e rule.1 = false) →
        get_error_details e = (500, "api_error", "internal_error"))
      ∧ (∀ i (hi : i < ERROR_MAP.length),
          isinstanceOf e (ERROR_MAP.get ⟨i, hi⟩).1 = true →
          (∀ j (hj : j < i), isinstanceOf e (ERROR_MAP.get ⟨j, Nat.lt_trans hj hi⟩).1 = false) →
          get_error_details e = (ERROR_MAP.get ⟨i, hi⟩).2) := by
  intro e
  constructor
  · intro hnone
    unfold get_error_details
    rw [List.find?_eq_none.mpr (fun rule hr => by rw [hnone rule hr]; simp)]
  · intro i hi hp hfirst
    unfold get_error_details
    rw [find?_of_first ERROR_MAP (fun rule => isinstanceOf e rule.1) i hi hp hfirst]

/-- Concrete instantiations of the C4 theorem: an unmapped exception gets
the generic triple; an exception that is an instance of both Timeout and
APIConnectionError gets Timeout's triple because Timeout is registered
first. -/
theorem error_classifier_first_match_witness :
    get_error_details { name := "ValueError", classes := [], msg := "boom" }
      = (500, "api_error", "internal_error")
    ∧ get_error_details
        { name := "Timeout", classes := [.timeout, .apiConnectionError], msg := "slow" }
      = (504, "timeout_error", "request_timeout") := by
  constructor
  · exact (error_classifier_first_match
      { name := "ValueError", classes := [], msg := "boom" }).1 (by decide)
  · exact (error_classifier_first_match
      { name := "Timeout", classes := [.timeout, .apiConnectionError], msg := "slow" }).2
      5 (by decide) (by decide) (by decide)

/-- C3: the local-date-to-UTC-range conversion on the spec's concrete
examples (PST, UTC, JST offsets), across a leap day and a year boundary,
and in general: the start instant is local midnight minus the offset
minutes and the exclusive end instant is exactly 24 hours (1440 minutes)
later. -/
theorem local_date_to_utc_range_conversion :
    convert_local_date_to_utc_range "2025-10-06" (-480)
        = some ("2025-10-06T08:00:00", "2025-10-07T08:00:00")
    ∧ convert_local_date_to_utc_range "2025-10-06" 0
        = some ("2025-10-06T00:00:00", "2025-10-07T00:00:00")
    ∧ convert_local_date_to_utc_range "2025-10-06" 540
        = some ("2025-10-05T15:00:00", "2025-10-06T15:00:00")
    ∧ convert_local_date_to_utc_range "2024-02-29" (-480)
        = some ("2024-02-29T08:00:00", "2024-03-01T08:00:00")
    ∧ convert_local_date_to_utc_range "2024-12-31" (-480)
        = some ("2024-12-31T08:00:00", "2025-01-01T08:00:00")
    ∧ ∀ (d : DateYMD) (off : Int),
        (utcRangeInstants d off).1 = localMidnightInstant d - off
        ∧ (utcRangeInstants d off).2 = (utcRangeInstants d off).1 + 1440 := by
  refine ⟨by decide, by decide, by decide, by decide, by decide, ?_⟩
  intro d off
  exact ⟨rfl, rfl⟩

theorem dateTimeFilter_fst (sd ed : Option String) (tz : Option Int)
    (p : String × List String) (h : dateTimeFilter sd ed tz = some p) :
    p.1 = "AND timestamp >= ? AND timestamp < ?" ∨ p.1 = "AND timestamp >= ?"
    ∨ p.1 = "AND timestamp < ?" ∨ p.1 = "" := by
  unfold dateTimeFilter at h
  repeat' split at h
  all_goals
    first
      | exact Option.noConfusion h
      | (rw [Option.some_inj] at h; subst h; simp)

/-- C10: the relative last-N-hours predicate is produced exactly when the
hours argument is supplied and nonzero; hours = 0 behaves identically to
hours being absent, falling through to the date-based filter. -/
theorem hours_zero_behaves_as_absent :
    ∀ (h : Int) (sd ed : Option String) (tz : Option Int),
      build_time_filter (some 0) sd ed tz = build_time_filter none sd ed tz
      ∧ ((∃ ps, build_time_filter (some h) sd ed tz = some (hoursClause, ps)) ↔ h ≠ 0) := by
  intro h sd ed tz
  constructor
  · rfl
  · constructor
    · rintro ⟨ps, hps⟩ h0
      subst h0
      have hps2 : dateTimeFilter sd ed tz = some (hoursClause, ps) := hps
      have hd := dateTimeFilter_fst sd ed tz (hoursClause, ps) hps2
      rcases hd with h1 | h1 | h1 | h1
      · exact absurd (show hoursClause = "AND timestamp >= ? AND timestamp < ?" from h1) (by decide)
      · exact absurd (show hoursClause = "AND timestamp >= ?" from h1) (by decide)
      · exact absurd (show hoursClause = "AND timestamp < ?" from h1) (by decide)
      · exact absurd (show hoursClause = "" from h1) (by decide)
    · intro hne
      refine ⟨[ "-" ++ toString h ++ " hours" ], ?_⟩
      unfold build_time_filter
      have ht : truthyInt (some h) = true := by
        simp [truthyInt]
        exact hne
      rw [ht]
      rfl

theorem accumChunk_streamError (fr : Resp) (c : Chunk) :
    (accumChunk fr c).streamError = fr.streamError := by
  unfold accumChunk
  cases c.choicesNonempty <;> cases c.content <;> cases c.finish_reason <;>
    cases c.id <;> cases c.usage <;> simp

theorem foldl_accum_streamError (l : List Chunk) (fr : Resp) :
    (List.foldl accumChunk fr l).streamError = fr.streamError := by
  induction l generalizing fr with
  | nil => rfl
  | cons c t ih => rw [List.foldl_cons, ih, accumChunk_streamError]

theorem accumChunk_usage (fr : Resp) (c : Chunk) :
    (accumChunk fr c).usage
      = match c.usage with
        | some u => some u
        | none => fr.usage := by
  unfold accumChunk
  cases c.choicesNonempty <;> cases c.content <;> cases c.finish_reason <;>
    cases c.id <;> cases c.usage <;> simp

theorem genLoop_eq (n : Nat) (cs : List Chunk) (k : Nat) (fr : Resp) :
    genLoop (some n) cs k fr
      = ((cs.take (n - k)).map Frame.chunk,
         List.foldl accumChunk fr (cs.take (n - k)),
         decide (n - k < cs.length)) := by
  induction cs generalizing k fr with
  | nil =>
    show (([] : List Frame), fr, false) = _
    rw [List.take_nil, List.map_nil, List.foldl_nil,
      show decide (n - k < ([] : List Chunk).length) = false from
        decide_eq_false (Nat.not_lt_zero _)]
  | cons c cs ih =>
    by_cases hd : n ≤ k
    · have h0 : n - k = 0 := Nat.sub_eq_zero_of_le hd
      have hdis : disconnectedAt (some n) k = true := by
        simp [disconnectedAt]
        omega
      simp [genLoop, hdis, h0]
    · have hdis : disconnectedAt (some n) k = false := by
        simp [disconnectedAt]
        omega
      have hm : n - k = (n - (k + 1)) + 1 := by omega
      have hstep : genLoop (some n) (c :: cs) k fr
          = (Frame.chunk c :: (genLoop (some n) cs (k + 1) (accumChunk fr c)).1,
             (genLoop (some n) cs (k + 1) (accumChunk fr c)).2) := by
        simp [genLoop, hdis]
      rw [hstep, ih (k + 1) (accumChunk fr c)]
      rw [hm]
      simp only [List.take_succ_cons, List.map_cons, List.foldl_cons, List.length_cons]
      refine congrArg _ (congrArg _ ?_)
      rw [decide_eq_decide]
      omega

theorem runGenerate_disconnect_eq (chunks : List Chunk) (terr : Option Exc)
    (n : Nat) (m : String) (h : n ≤ chunks.length) :
    (runGenerate chunks terr (some n) m).1 = (chunks.take n).map Frame.chunk
    ∧ ((n < chunks.length ∨ terr = none) →
        (runGenerate chunks terr (some n) m).2
          = List.foldl accumChunk (initFullResponse m) (chunks.take n)) := by
  unfold runGenerate
  rw [genLoop_eq n chunks 0 (initFullResponse m)]
  simp only [Nat.sub_zero]
  by_cases hlt : n < chunks.length
  · rw [show decide (n < chunks.length) = true from by simpa using hlt]
    exact ⟨rfl, fun _ => rfl⟩
  · have heq : n = chunks.length := Nat.le_antisymm h (Nat.not_lt.mp hlt)
    rw [show decide (n < chunks.length) = false from by simpa using hlt]
    have hdis : disconnectedAt (some n) chunks.length = true := by
      simp [disconnectedAt]
      omega
    cases terr with
    | none =>
      simp [hdis]
    | some e =>
      simp only [hdis, if_true]
      constructor
      · simp
      · intro hor
        rcases hor with h1 | h1
        · exact absurd h1 hlt
        · exact absurd h1 (by simp)

/-- C1: every enumerated outcome of a chat-completions attempt —
non-streaming success, provider error, resolution failure, streaming with
any chunk sequence, provider error and disconnect behaviour — writes
exactly one ledger record; and when the client disconnects after n chunks,
exactly the first n chunk frames are forwarded, the ledger record is built
from the content accumulated up to the disconnect, and its error field is
none unless the provider itself failed first. -/
theorem one_ledger_record_per_attempt :
    (∀ (costFn : Resp → Option ℚ) (now dur : Int)
       (model provider litellmModel rdLog : String) (path : ChatPath),
        (runChat costFn now dur model provider litellmModel rdLog path).records.length = 1)
    ∧ (∀ (costFn : Resp → Option ℚ) (now dur : Int)
         (model provider litellmModel rdLog : String)
         (chunks : List Chunk) (terr : Option Exc) (n : Nat),
        n ≤ chunks.length →
        (runChat costFn now dur model provider litellmModel rdLog
            (.streaming chunks terr (some n))).frames
          = (chunks.take n).map Frame.chunk
        ∧ ((n < chunks.length ∨ terr = none) →
            (runChat costFn now dur model provider litellmModel rdLog
                (.streaming chunks terr (some n))).records
              = [ log_request costFn now model provider
                    (some (List.foldl accumChunk (initFullResponse litellmModel)
                      (chunks.take n)))
                    dur rdLog none ])) := by
  constructor
  · intro costFn now dur model provider litellmModel rdLog path
    cases path <;> rfl
  · intro costFn now dur model provider litellmModel rdLog chunks terr n hn
    have hgen := runGenerate_disconnect_eq chunks terr n litellmModel hn
    constructor
    · show (runGenerate chunks terr (some n) litellmModel).1 = _
      exact hgen.1
    · intro hor
      show [ log_request costFn now model provider
              (some (runGenerate chunks terr (some n) litellmModel).2) dur rdLog
              (runGenerate chunks terr (some n) litellmModel).2.streamError ] = _
      rw [hgen.2 hor]
      rw [show (List.foldl accumChunk (initFullResponse litellmModel) (chunks.take n)).streamError
          = none from foldl_accum_streamError _ _]

/-- Concrete instantiation of the C1 theorem: a two-chunk stream with the
client disconnecting after the first chunk; one record is written, only
the first chunk is forwarded, no error is recorded. -/
theorem one_ledger_record_per_attempt_witness :
    (runChat (fun _ => none) 100 50 "gpt" "openai" "openai/gpt-4o" "req"
        (.nonStreamError excRate)).records.length = 1
    ∧ (runChat (fun _ => none) 100 50 "gpt" "openai" "openai/gpt-4o" "req"
        (.streaming [ chunkHel, chunkLo ] none (some 1))).frames
      = [ Frame.chunk chunkHel ]
    ∧ (runChat (fun _ => none) 100 50 "gpt" "openai" "openai/gpt-4o" "req"
        (.streaming [ chunkHel, chunkLo ] none (some 1))).records.map
          (fun r => (r.error, r.response_data.map Resp.content))
      = [ (none, some "Hel") ] := by
  refine ⟨?_, ?_, ?_⟩
  · exact one_ledger_record_per_attempt.1 (fun _ => none) 100 50 "gpt" "openai"
      "openai/gpt-4o" "req" (.nonStreamError excRate)
  · exact ((one_ledger_record_per_attempt.2 (fun _ => none) 100 50 "gpt" "openai"
      "openai/gpt-4o" "req" [ chunkHel, chunkLo ] none 1 (by decide)).1).trans (by rfl)
  · have h := (one_ledger_record_per_attempt.2 (fun _ => none) 100 50 "gpt" "openai"
      "openai/gpt-4o" "req" [ chunkHel, chunkLo ] none 1 (by decide)).2 (Or.inl (by decide))
    rw [h]
    rfl

theorem genLoop_none (cs : List Chunk) (k : Nat) (fr : Resp) :
    genLoop none cs k fr = (cs.map Frame.chunk, List.foldl accumChunk fr cs, false) := by
  induction cs generalizing k fr with
  | nil => rfl
  | cons c t ih =>
    have hdis : disconnectedAt none k = false := rfl
    have hstep : genLoop none (c :: t) k fr
        = (Frame.chunk c :: (genLoop none t (k + 1) (accumChunk fr c)).1,
           (genLoop none t (k + 1) (accumChunk fr c)).2) := by
      simp [genLoop, hdis]
    rw [hstep, ih (k + 1) (accumChunk fr c)]
    rfl

theorem foldl_accum_usage_last (cs : List Chunk) (fr : Resp) :
    (List.foldl accumChunk fr cs).usage
      = match lastUsage cs with
        | some u => some u
        | none => fr.usage := by
  induction cs generalizing fr with
  | nil => rfl
  | cons c t ih =>
    rw [List.foldl_cons, ih (accumChunk fr c), accumChunk_usage]
    cases hl : lastUsage t with
    | some u => simp [lastUsage, hl]
    | none => cases hc : c.usage <;> simp [lastUsage, hl, hc]

theorem runGenerate_some_err (chunks : List Chunk) (e : Exc) (dAfter : Option Nat)
    (m : String) :
    (runGenerate chunks (some e) dAfter m).2 = streamRespOf chunks e m
    ∨ (runGenerate chunks (some e) dAfter m).2.streamError = none := by
  unfold runGenerate
  cases dAfter with
  | none =>
    rw [genLoop_none chunks 0 (initFullResponse m)]
    left
    rfl
  | some n =>
    rw [genLoop_eq n chunks 0 (initFullResponse m)]
    simp only [Nat.sub_zero]
    by_cases hlt : n < chunks.length
    · right
      rw [show decide (n < chunks.length) = true from by simpa using hlt]
      exact foldl_accum_streamError _ _
    · left
      rw [show decide (n < chunks.length) = false from by simpa using hlt]
      show ({ List.foldl accumChunk (initFullResponse m) (chunks.take n) with
          streamError := some (streamErrorText e) } : Resp) = streamRespOf chunks e m
      rw [List.take_of_length_le (Nat.le_of_not_lt hlt)]
      rfl

/-- C6 (amended): every failure record written without a response object —
the resolution-failure and non-streaming provider-error paths — carries
zero cost and zero token counts; a ledger record carrying a mid-stream
provider error is instead logged from the accumulated synthetic response:
its error text is the classified stream error, its token counts are those
of the last usage block accumulated before the failure (zero when no
usage block arrived), and its cost is the cost function's result on that
synthetic response, not forced to zero. -/
theorem error_record_cost_tokens :
    (∀ (costFn : Resp → Option ℚ) (now dur : Int)
       (model provider litellmModel rdLog : String) (e : Exc),
      ∀ r ∈ (runChat costFn now dur model provider litellmModel rdLog
          (.nonStreamError e)).records,
        r.error.isSome = true ∧ r.cost = 0 ∧ r.prompt_tokens = 0
        ∧ r.completion_tokens = 0 ∧ r.total_tokens = 0)
    ∧ (∀ (costFn : Resp → Option ℚ) (now dur : Int)
         (model provider litellmModel rdLog detail : String),
      ∀ r ∈ (runChat costFn now dur model provider litellmModel rdLog
          (.resolutionFailure detail)).records,
        r.error.isSome = true ∧ r.cost = 0 ∧ r.prompt_tokens = 0
        ∧ r.completion_tokens = 0 ∧ r.total_tokens = 0)
    ∧ (∀ (costFn : Resp → Option ℚ) (now dur : Int)
         (model provider litellmModel rdLog : String)
         (chunks : List Chunk) (e : Exc) (dAfter : Option Nat),
      ∀ r ∈ (runChat costFn now dur model provider litellmModel rdLog
          (.streaming chunks (some e) dAfter)).records,
        r.error ≠ none →
          r.error = some (streamErrorText e)
          ∧ r.response_data = some (streamRespOf chunks e litellmModel)
          ∧ r.prompt_tokens = ((lastUsage chunks).getD zeroUsage).prompt_tokens
          ∧ r.completion_tokens = ((lastUsage chunks).getD zeroUsage).completion_tokens
          ∧ r.total_tokens = ((lastUsage chunks).getD zeroUsage).total_tokens
          ∧ r.cost = (costFn (streamRespOf chunks e litellmModel)).getD 0
          ∧ (lastUsage chunks = none →
              r.prompt_tokens = 0 ∧ r.completion_tokens = 0 ∧ r.total_tokens = 0)) := by
  refine ⟨?_, ?_, ?_⟩
  · intro costFn now dur model provider litellmModel rdLog e r hr
    rw [List.mem_singleton.mp hr]
    exact ⟨rfl, rfl, rfl, rfl, rfl⟩
  · intro costFn now dur model provider litellmModel rdLog detail r hr
    rw [List.mem_singleton.mp hr]
    exact ⟨rfl, rfl, rfl, rfl, rfl⟩
  · intro costFn now dur model provider litellmModel rdLog chunks e dAfter r hr herr
    rw [List.mem_singleton.mp hr] at herr ⊢
    have hse : (runGenerate chunks (some e) dAfter litellmModel).2.streamError ≠ none := herr
    have hfr : (runGenerate chunks (some e) dAfter litellmModel).2
        = streamRespOf chunks e litellmModel := by
      rcases runGenerate_some_err chunks e dAfter litellmModel with h | h
      · exact h
      · exact absurd h hse
    have hu : (streamRespOf chunks e litellmModel).usage.getD zeroUsage
        = (lastUsage chunks).getD zeroUsage := by
      show ((List.foldl accumChunk (initFullResponse litellmModel) chunks).usage).getD zeroUsage
        = (lastUsage chunks).getD zeroUsage
      rw [foldl_accum_usage_last]
      cases lastUsage chunks <;> rfl
    refine ⟨?_, ?_, ?_, ?_, ?_, ?_, ?_⟩
    · show (runGenerate chunks (some e) dAfter litellmModel).2.streamError
        = some (streamErrorText e)
      rw [hfr]
      rfl
    · show some (runGenerate chunks (some e) dAfter litellmModel).2
        = some (streamRespOf chunks e litellmModel)
      rw [hfr]
    · show ((runGenerate chunks (some e) dAfter litellmModel).2.usage.getD zeroUsage).prompt_tokens
        = ((lastUsage chunks).getD zeroUsage).prompt_tokens
      rw [hfr, hu]
    · show ((runGenerate chunks (some e) dAfter litellmModel).2.usage.getD zeroUsage).completion_tokens
        = ((lastUsage chunks).getD zeroUsage).completion_tokens
      rw [hfr, hu]
    · show ((runGenerate chunks (some e) dAfter litellmModel).2.usage.getD zeroUsage).total_tokens
        = ((lastUsage chunks).getD zeroUsage).total_tokens
      rw [hfr, hu]
    · show (costFn (runGenerate chunks (some e) dAfter litellmModel).2).getD 0
        = (costFn (streamRespOf chunks e litellmModel)).getD 0
      rw [hfr]
    · intro h0
      have hz : (lastUsage chunks).getD zeroUsage = zeroUsage := by
        rw [h0]
        rfl
      refine ⟨?_, ?_, ?_⟩
      · show ((runGenerate chunks (some e) dAfter litellmModel).2.usage.getD zeroUsage).prompt_tokens = 0
        rw [hfr, hu, hz]
        rfl
      · show ((runGenerate chunks (some e) dAfter litellmModel).2.usage.getD zeroUsage).completion_tokens = 0
        rw [hfr, hu, hz]
        rfl
      · show ((runGenerate chunks (some e) dAfter litellmModel).2.usage.getD zeroUsage).total_tokens = 0
        rw [hfr, hu, hz]
        rfl

/-- C6 counterexample to the claim as stated: a provider error raised
after a usage-bearing chunk yields a ledger record whose error field is
set AND whose completion-token count is 7, not zero — the streaming path
logs the accumulated usage together with the error. -/
theorem error_record_tokens_counterexample :
    (runChat (fun _ => none) 100 50 "gpt" "openai" "openai/gpt-4o" "req"
        (.streaming [ chunkLo ] (some excBadReq) none)).records.map
      (fun r => (r.error, r.completion_tokens))
      = [ (some "BadRequestError: boom", 7) ]
    ∧ ((7 : Int) ≠ 0) := by
  exact ⟨rfl, by decide⟩

/-- Concrete instantiation of the C6 amended theorem: a non-streaming
provider error logs zero cost and tokens; a mid-stream provider error
after a content chunk and a usage-bearing chunk logs the classified error
together with the retained 5/7/12 token counts. -/
theorem error_record_cost_tokens_witness :
    (runChat (fun _ => none) 100 50 "gpt" "openai" "openai/gpt-4o" "req"
        (.nonStreamError excRate)).records.map
      (fun r => (r.error.isSome, r.cost, r.prompt_tokens, r.completion_tokens, r.total_tokens))
      = [ (true, 0, 0, 0, 0) ]
    ∧ (runChat (fun _ => none) 100 50 "gpt" "openai" "openai/gpt-4o" "req"
        (.streaming [ chunkHel, chunkLo ] (some excBadReq) none)).records.map
      (fun r => (r.error, r.prompt_tokens, r.completion_tokens, r.total_tokens))
      = [ (some "BadRequestError: boom", 5, 7, 12) ] := by
  constructor
  · have h := error_record_cost_tokens.1 (fun _ => none) 100 50 "gpt" "openai"
      "openai/gpt-4o" "req" excRate
      (log_request (fun _ => none) 100 "gpt" "openai" none 50 "req"
        (some "RateLimitError: slow down"))
      (by decide)
    rw [show (runChat (fun _ => none) 100 50 "gpt" "openai" "openai/gpt-4o" "req"
        (.nonStreamError excRate)).records
      = [ log_request (fun _ => none) 100 "gpt" "openai" none 50 "req"
          (some "RateLimitError: slow down") ] from rfl]
    simp only [List.map_cons, List.map_nil]
    rw [h.1, h.2.1, h.2.2.1, h.2.2.2.1, h.2.2.2.2]
  · have h := error_record_cost_tokens.2.2 (fun _ => none) 100 50 "gpt" "openai"
      "openai/gpt-4o" "req" [ chunkHel, chunkLo ] excBadReq none
      (log_request (fun _ => none) 100 "gpt" "openai"
        (some (runGenerate [ chunkHel, chunkLo ] (some excBadReq) none "openai/gpt-4o").2) 50 "req"
        (runGenerate [ chunkHel, chunkLo ] (some excBadReq) none "openai/gpt-4o").2.streamError)
      (by decide) (by decide)
    rw [show (runChat (fun _ => none) 100 50 "gpt" "openai" "openai/gpt-4o" "req"
        (.streaming [ chunkHel, chunkLo ] (some excBadReq) none)).records
      = [ log_request (fun _ => none) 100 "gpt" "openai"
          (some (runGenerate [ chunkHel, chunkLo ] (some excBadReq) none "openai/gpt-4o").2) 50 "req"
          (runGenerate [ chunkHel, chunkLo ] (some excBadReq) none "openai/gpt-4o").2.streamError ] from rfl]
    simp only [List.map_cons, List.map_nil]
    rw [h.1, h.2.2.1, h.2.2.2.1, h.2.2.2.2.1]
    decide

theorem insertDesc_length (r : Record) (l : List Record) :
    (insertDesc r l).length = l.length + 1 := by
  induction l with
  | nil => rfl
  | cons x xs ih =>
    unfold insertDesc
    by_cases h : x.timestamp ≤ r.timestamp
    · simp [h]
    · simp [h, ih]

theorem sortByTsDesc_length (l : List Record) :
    (sortByTsDesc l).length = l.length := by
  induction l with
  | nil => rfl
  | cons x xs ih =>
    show (insertDesc x (sortByTsDesc xs)).length = xs.length + 1
    rw [insertDesc_length, ih]

/-- C8: the endpoint wiring is broken — server.py passes sort_by/sort_dir
keywords the RequestFilter dataclass does not declare, so the generated
__init__ raises TypeError on every /requests call — while the documented
pagination behaviour holds of the database layer under the endpoint's
clamp: for a non-negative requested limit the page holds at most 200
records, and an offset at or past the matching-row count yields an empty
page whose aggregate total still counts every matching record. -/
theorem requests_pagination :
    ("sort_by" ∈ requestsEndpointKwargs ∧ "sort_by" ∉ requestFilterFields
      ∧ "sort_dir" ∈ requestsEndpointKwargs ∧ "sort_dir" ∉ requestFilterFields)
    ∧ ∀ (db : List Record) (filt : Record → Bool) (offset limit : Int),
        0 ≤ limit →
        (requestsEndpointQuery db filt offset limit).requests.length ≤ 200
        ∧ (((matchingRows db filt).length : Int) ≤ offset →
            (requestsEndpointQuery db filt offset limit).requests = []
            ∧ (requestsEndpointQuery db filt offset limit).total
                = (matchingRows db filt).length) := by
  constructor
  · exact ⟨by decide, by decide, by decide, by decide⟩
  · intro db filt offset limit hlim
    have hmin0 : 0 ≤ min limit 200 := le_min hlim (by decide)
    have hneg : ¬ (min limit 200 < 0) := not_lt.mpr hmin0
    constructor
    · show (sqlPage (sortByTsDesc (matchingRows db filt)) offset (min limit 200)).length ≤ 200
      unfold sqlPage
      rw [if_neg hneg]
      calc ((List.drop offset.toNat (sortByTsDesc (matchingRows db filt))).take
              (min limit 200).toNat).length
          ≤ (min limit 200).toNat := List.length_take_le _ _
        _ ≤ 200 := by omega
    · intro hoff
      have hlen : (sortByTsDesc (matchingRows db filt)).length ≤ offset.toNat := by
        rw [sortByTsDesc_length]
        omega
      have hdrop : (sortByTsDesc (matchingRows db filt)).drop offset.toNat = [] :=
        List.drop_eq_nil_of_le hlen
      constructor
      · show sqlPage (sortByTsDesc (matchingRows db filt)) offset (min limit 200) = []
        unfold sqlPage
        rw [if_neg hneg, hdrop, List.take_nil]
      · rfl

/-- Concrete instantiation of the C8 theorem: an oversized limit still
yields at most 200 rows, and an offset past the single matching record
yields an empty page whose total still counts it. -/
theorem requests_pagination_witness :
    (requestsEndpointQuery [ recOk ] (fun _ => true) 0 500).requests.length ≤ 200
    ∧ (requestsEndpointQuery [ recOk ] (fun _ => true) 1 50).requests = []
    ∧ (requestsEndpointQuery [ recOk ] (fun _ => true) 1 50).total = 1 := by
  refine ⟨?_, ?_, ?_⟩
  · exact (requests_pagination.2 [ recOk ] (fun _ => true) 0 500 (by decide)).1
  · exact ((requests_pagination.2 [ recOk ] (fun _ => true) 1 50 (by decide)).2 (by decide)).1
  · exact (((requests_pagination.2 [ recOk ] (fun _ => true) 1 50 (by decide)).2
      (by decide)).2).trans (by decide)

/-- C7: the throughput rows are exactly the non-errored in-window records
with positive completion tokens and positive duration — the per-model
performance entries aggregate only those — while the totals count every
non-errored in-window record, including the ones the throughput
statistics exclude. -/
theorem throughput_precondition :
    ∀ (db : List Record) (tf : Record → Bool),
      (∀ r, r ∈ perfRows db tf ↔
        (r ∈ matchingRows db tf ∧ 0 < r.completion_tokens ∧ 0 < r.duration_ms))
      ∧ (statsTotalsAndPerformance db tf).1.requests = (matchingRows db tf).length
      ∧ (statsTotalsAndPerformance db tf).2
          = (modelsOf (perfRows db tf)).map (perfEntryFor (perfRows db tf)) := by
  intro db tf
  refine ⟨?_, rfl, rfl⟩
  intro r
  simp only [perfRows, matchingRows, List.mem_filter, Bool.and_eq_true,
    decide_eq_true_eq]
  constructor
  · rintro ⟨hdb, ⟨⟨⟨he, hct⟩, hdur⟩, htf⟩⟩
    exact ⟨⟨hdb, ⟨he, htf⟩⟩, hct, hdur⟩
  · rintro ⟨⟨hdb, ⟨he, htf⟩⟩, hct, hdur⟩
    exact ⟨hdb, ⟨⟨⟨he, hct⟩, hdur⟩, htf⟩⟩

/-- C9: a read query neither modifies the ledger nor depends on anything
beyond the table contents and the query specification: issuing the same
query twice with no intervening write leaves the table unchanged and
returns the identical page and aggregates, the last-N-hours shortcut
included (its reference instant is part of the specification). -/
theorem read_query_idempotent :
    ∀ (costFn : Resp → Option ℚ) (db : List Record) (q : QuerySpec),
      (applyOp costFn db (.query q)).1 = db
      ∧ (applyOp costFn ((applyOp costFn db (.query q)).1) (.query q)).2
          = (applyOp costFn db (.query q)).2 :=
  fun _ _ _ => ⟨rfl, rfl⟩

end Apantli
